import Mathlib

/-!
Shallow embedding of `api/webhook.js` (first implementation, lines 1-244):
a serverless handler forwarding website form submissions to the Zoho CRM,
with a module-level access-token cache.

Times are milliseconds since the epoch, modelled as `Int` (JS `Date.now()`).
JS strings are Lean `String`s; optional / possibly-`undefined` fields are
`Option String`.  The two outbound HTTP calls (token exchange, lead
creation) are modelled by oracle parameters describing the remote
response, so every function is a pure state transformer that additionally
reports how many external authorization calls it performed.
-/

namespace Webhook

/-- JS truthiness of a nullable string: present and non-empty. -/
def truthy : Option String → Bool
  | some s => s ≠ ""
  | none => false

/-- JS `x || d` for a nullable string `x` and a string default `d`. -/
def orDefault (o : Option String) (d : String) : String :=
  match o with
  | some s => if s = "" then d else s
  | none => d

/-- JS `x || null` for a nullable string: an empty string collapses to null. -/
def orNull (o : Option String) : Option String :=
  if truthy o then o else none

/-- Module-level `accessTokenCache = { token: null, expires: 0 }`. -/
structure TokenCache where
  token : Option String
  expires : Int
deriving Repr, DecidableEq

/-- Initial value of the module-level cache. -/
def initialCache : TokenCache := { token := none, expires := 0 }

/-- The `- 60000` safety margin applied when caching a token (one minute). -/
def safetyMarginMs : Int := 60000

/-- Line 22: `accessTokenCache.token && Date.now() < accessTokenCache.expires`. -/
def cacheValid (c : TokenCache) (now : Int) : Bool :=
  truthy c.token && decide (now < c.expires)

/-- The Token Cache read: the cached token when the validity check passes,
otherwise absent.  (Inline in `getAccessToken`, lines 22-24.) -/
def cacheGet (c : TokenCache) (now : Int) : Option String :=
  if cacheValid c now then c.token else none

/-- Lines 49-50: store the token with
`expires = Date.now() + expires_in * 1000 - 60000`. -/
def cacheSet (tok : String) (expiresIn : Int) (now : Int) : TokenCache :=
  { token := some tok, expires := now + expiresIn * 1000 - safetyMarginMs }

/-- Oracle for the outbound token-refresh exchange
(`POST https://accounts.zoho.com/oauth/v2/token`). -/
inductive TokenExchange where
  /-- an `ok` response with JSON `{ access_token, expires_in }`. -/
  | success (access_token : String) (expires_in : Int)
  /-- non-`ok` response, with the optional `error` field of its JSON body. -/
  | httpError (err : Option String)
  /-- network failure or malformed JSON body (`fetch`/`json()` throwing). -/
  | transportFailure
deriving Repr, DecidableEq

/-- Message of the error thrown by `getAccessToken` on any failure (line 55). -/
def authFailureMessage : String := "Failed to authenticate with Zoho"

/-- Message of the error thrown by `createZohoLead` on any failure (line 86). -/
def crmFailureMessage : String := "Failed to create lead in Zoho CRM"

/-- Result of `getAccessToken`: the token, or the thrown error's message. -/
inductive AuthResult where
  | ok (token : String)
  | authError (msg : String)
deriving Repr, DecidableEq

/-- Outcome of a `getAccessToken` call: its result, the cache afterwards, and
how many external authorization calls were made (0 or 1). -/
structure AuthOutcome where
  result : AuthResult
  cache : TokenCache
  exchangeCalls : Nat
deriving Repr, DecidableEq

/-- Function `getAccessToken` (lines 20-57): return the cached token if still valid;
otherwise perform one token-refresh exchange, cache and return the new
token on success, and throw `authFailureMessage` on a non-ok response or
any transport failure. -/
def getAccessToken (cache : TokenCache) (now : Int)
    (exchange : TokenExchange) : AuthOutcome :=
  match cacheGet cache now with
  | some t => { result := .ok t, cache := cache, exchangeCalls := 0 }
  | none =>
    match exchange with
    | .success access_token expires_in =>
        { result := .ok access_token
          cache := cacheSet access_token expires_in now
          exchangeCalls := 1 }
    | .httpError _ =>
        { result := .authError authFailureMessage
          cache := cache
          exchangeCalls := 1 }
    | .transportFailure =>
        { result := .authError authFailureMessage
          cache := cache
          exchangeCalls := 1 }

/-- The `details` object of one entry of the CRM response (`{ id, ... }`);
`id` may be absent. -/
structure ZohoDetails where
  id : Option String
deriving Repr, DecidableEq

/-- One entry of the CRM response's `data` list. -/
structure ZohoEntry where
  status : Option String
  details : Option ZohoDetails
deriving Repr, DecidableEq

/-- Parsed JSON body of the CRM response; `data` and `message` may be absent. -/
structure ZohoResponseBody where
  data : Option (List ZohoEntry)
  message : Option String
deriving Repr, DecidableEq

/-- Oracle for the outbound lead-creation call (`POST <domain>/crm/v2/Leads`). -/
inductive CrmExchange where
  /-- an HTTP response: its `response.ok` flag and parsed JSON body. -/
  | response (ok : Bool) (body : ZohoResponseBody)
  /-- network failure or malformed JSON body. -/
  | transportFailure
deriving Repr, DecidableEq

/-- Result of `createZohoLead`: the parsed CRM body, or the thrown error's
message. -/
inductive CrmResult where
  | ok (body : ZohoResponseBody)
  | crmError (msg : String)
deriving Repr, DecidableEq

/-- Outcome of a `createZohoLead` call: its result, the token cache
afterwards, and how many external authorization calls were made. -/
structure CrmOutcome where
  result : CrmResult
  cache : TokenCache
  exchangeCalls : Nat
deriving Repr, DecidableEq

/-- Fields sent to the CRM for a lead (built by `mapFormDataToZohoLead`). -/
structure ZohoLead where
  First_Name : String
  Last_Name : String
  Email : Option String
  Phone : Option String
  Company : Option String
  Lead_Source : String
  Lead_Status : String
  Description : Option String
deriving Repr, DecidableEq

/-- Function `createZohoLead` (lines 62-88): acquire a token, POST the lead, parse the
response.  Any failure (authentication included: `getAccessToken` throws
inside this function's `try`) is caught and rethrown as `crmFailureMessage`;
a non-ok CRM status likewise.  The lead itself only feeds the request body,
so it does not influence the modelled outcome. -/
def createZohoLead (_leadData : ZohoLead) (cache : TokenCache) (now : Int)
    (exchange : TokenExchange) (crm : CrmExchange) : CrmOutcome :=
  let auth := getAccessToken cache now exchange
  match auth.result with
  | .authError _ =>
      { result := .crmError crmFailureMessage
        cache := auth.cache
        exchangeCalls := auth.exchangeCalls }
  | .ok _token =>
      match crm with
      | .transportFailure =>
          { result := .crmError crmFailureMessage
            cache := auth.cache
            exchangeCalls := auth.exchangeCalls }
      | .response ok body =>
          if ok then
            { result := .ok body
              cache := auth.cache
              exchangeCalls := auth.exchangeCalls }
          else
            { result := .crmError crmFailureMessage
              cache := auth.cache
              exchangeCalls := auth.exchangeCalls }

/-- List-of-characters split on the characters satisfying `p`, keeping empty
segments: the semantics of JS `String.prototype.split` with a one-character
separator (`p = (· == sep)`).  `splitP p [] = [[]]`, matching
JS `"".split(sep) == [""]`. -/
def splitP (p : Char → Bool) : List Char → List (List Char)
  | [] => [[]]
  | c :: cs =>
    if p c then [] :: splitP p cs
    else
      match splitP p cs with
      | t :: ts => (c :: t) :: ts
      | [] => [[c]]

/-- JS `parts.join(' ')` on a list of character lists. -/
def joinSpace : List (List Char) → List Char
  | [] => []
  | [x] => x
  | x :: xs => x ++ ' ' :: joinSpace xs

/-- Raw inbound form fields; each may be absent. -/
structure FormData where
  name : Option String
  email : Option String
  phone : Option String
  company : Option String
  message : Option String
  form_type : Option String
deriving Repr, DecidableEq

/-- Function `mapFormDataToZohoLead` (lines 93-125):
`nameParts = (formData.name || 'Unknown User').split(' ')`,
`firstName = nameParts[0]`,
`lastName = nameParts.slice(1).join(' ') || 'User'`,
then a base record with per-form-type overrides of
`Lead_Source` / `Lead_Status` (the `switch` on `formType`). -/
def mapFormDataToZohoLead (formData : FormData) (formType : String) : ZohoLead :=
  let nameParts := splitP (· == ' ') (orDefault formData.name "Unknown User").toList
  let firstName := String.mk (nameParts.headD [])
  let lastName :=
    let joined := joinSpace nameParts.tail
    if joined.isEmpty then "User" else String.mk joined
  let baseData : ZohoLead :=
    { First_Name := firstName
      Last_Name := lastName
      Email := formData.email
      Phone := orNull formData.phone
      Company := orNull formData.company
      Lead_Source := "Website"
      Lead_Status := "Not Contacted"
      Description := orNull formData.message }
  if formType = "contact" then
    { baseData with Lead_Source := "Website - Contact Form" }
  else if formType = "newsletter" then
    { baseData with Lead_Source := "Website - Newsletter", Lead_Status := "Qualified" }
  else
    baseData

/-- A character admitted by `[^\s@]` in the email regex: neither whitespace
nor `@`. -/
def allowedEmailChar (c : Char) : Bool :=
  !c.isWhitespace && c != '@'

/-- The test `/^[^\s@]+@[^\s@]+\.[^\s@]+$/.test(s)` (line 169): the string
decomposes as `a ++ "@" ++ b ++ "." ++ c` with `a`, `b`, `c` non-empty and
free of whitespace and `@`.  Equivalently: exactly one `@`, a non-empty
whitespace-free part before it, and after it a whitespace-free part with a
`.` that is neither its first nor its last character. -/
def emailRegexTest (s : String) : Bool :=
  match splitP (· == '@') s.toList with
  | [a, r] =>
      !a.isEmpty && a.all allowedEmailChar && r.all allowedEmailChar &&
        ((r.dropLast.drop 1).contains '.')
  | _ => false

/-- JS `!s || s.trim().length === 0` for a nullable string: absent, empty, or
all-whitespace (trimming leaves nothing exactly when every character is
whitespace). -/
def isBlankOpt : Option String → Bool
  | none => true
  | some s => s.toList.all Char.isWhitespace

/-- Function `validateFormData` (lines 157-175): collect error messages in order. -/
def validateFormData (formData : FormData) : List String :=
  (if isBlankOpt formData.name then ["Name is required"] else []) ++
  (if isBlankOpt formData.email then ["Email is required"] else []) ++
  (if truthy formData.email && !emailRegexTest (formData.email.getD "") then
    ["Invalid email format"] else [])

/-- JSON body of the handler's HTTP response (absent fields as `none`),
plus its status code. -/
structure HttpResponse where
  status : Nat
  success : Bool
  message : Option String
  error : Option String
  leadId : Option String
deriving Repr, DecidableEq

/-- Message of the TypeError thrown by `zohoResponse.data[0].details.id`
when `details` is absent (the exact wording is runtime-specific; only its
being an error reaching the catch-all matters). -/
def detailsTypeErrorMessage : String :=
  "Cannot read properties of undefined (reading id)"

/-- Lines 224-234 of `handler`: accept exactly when
`zohoResponse.data && zohoResponse.data[0] && zohoResponse.data[0].status === 'success'`,
answering 200 with `leadId = zohoResponse.data[0].details.id` (a TypeError
when `details` is absent, caught by the handler's catch-all); otherwise
throw the generic CRM failure, caught into a 500. -/
def respondToCrmBody (body : ZohoResponseBody) : HttpResponse :=
  match body.data with
  | some (entry :: _) =>
      if entry.status = some "success" then
        match entry.details with
        | some d =>
            { status := 200, success := true
              message := some "Lead created successfully in Zoho CRM"
              error := none, leadId := d.id }
        | none =>
            { status := 500, success := false, message := none
              error := some detailsTypeErrorMessage, leadId := none }
      else
        { status := 500, success := false, message := none
          error := some crmFailureMessage, leadId := none }
  | _ =>
      { status := 500, success := false, message := none
        error := some crmFailureMessage, leadId := none }

/-- The `POST` branch of `handler` (lines 198-243), after `parseFormData`:
validate, derive `formType = formData.form_type || 'general'`, map, submit
via `createZohoLead`, then accept or reject the CRM body via
`respondToCrmBody`; every thrown error becomes a 500 carrying the error's
message.  Returns the response and the token cache after the request. -/
def handlerPost (formData : FormData) (cache : TokenCache) (now : Int)
    (exchange : TokenExchange) (crm : CrmExchange) : HttpResponse × TokenCache :=
  let validationErrors := validateFormData formData
  if validationErrors.isEmpty then
    let formType := orDefault formData.form_type "general"
    let zohoLeadData := mapFormDataToZohoLead formData formType
    let out := createZohoLead zohoLeadData cache now exchange crm
    match out.result with
    | .crmError msg =>
        ({ status := 500, success := false, message := none
           error := some msg, leadId := none }, out.cache)
    | .ok body => (respondToCrmBody body, out.cache)
  else
    ({ status := 400, success := false, message := none
       error := some ("Validation failed: " ++ String.intercalate ", " validationErrors)
       leadId := none }, cache)

/-!
Spec-side definitions, written from the specification's words, to be
compared with the behaviour embedded from the source.
-/

/-- The acknowledgment shape required by the spec's words: the response body
contains a list with exactly one entry whose status equals `"success"` and
whose details include an identifier. -/
def crmAckExactlyOne (body : ZohoResponseBody) : Bool :=
  match body.data with
  | some [entry] =>
      entry.status == some "success" &&
        (match entry.details with
         | some d => d.id.isSome
         | none => false)
  | _ => false

/-- The acknowledgment shape the source actually checks before answering
200: the `data` list is present and non-empty, its first entry has status
`"success"`, and that entry carries a `details` object (otherwise reading
`details.id` throws).  Further entries are never inspected. -/
def crmAckFirst (body : ZohoResponseBody) : Bool :=
  match body.data with
  | some (entry :: _) => entry.status == some "success" && entry.details.isSome
  | _ => false

/-- The whitespace-delimited tokens of a string, per the claim's words:
maximal runs of non-whitespace characters. -/
def whitespaceTokens (s : String) : List String :=
  ((splitP Char.isWhitespace s.toList).filter (fun t => !t.isEmpty)).map String.mk

/-!
Helper lemmas.
-/

/-- Splitting never produces the empty list of segments. -/
theorem splitP_ne_nil (p : Char → Bool) (cs : List Char) : splitP p cs ≠ [] := by
  induction cs with
  | nil => simp [splitP]
  | cons c cs ih =>
    by_cases h : p c
    · simp [splitP, h]
    · simp only [splitP, h, if_neg, Bool.false_eq_true, if_false]
      rcases hs : splitP p cs with _ | ⟨t, ts⟩
      · exact absurd hs ih
      · simp

/-- The first segment of `splitP p` is the longest prefix avoiding `p`. -/
theorem splitP_headD (p : Char → Bool) (cs : List Char) :
    (splitP p cs).headD [] = cs.takeWhile (fun c => !p c) := by
  induction cs with
  | nil => simp [splitP]
  | cons c cs ih =>
    by_cases h : p c
    · simp [splitP, h, List.takeWhile]
    · simp only [splitP, h, if_false, List.takeWhile, Bool.not_eq_true']
      rcases hs : splitP p cs with _ | ⟨t, ts⟩
      · exact absurd hs (splitP_ne_nil p cs)
      · simp only [List.headD_cons]
        rw [hs] at ih
        simp only [List.headD_cons] at ih
        simp [h, ih]

/-- Joining all space-split segments with spaces reconstructs the string. -/
theorem joinSpace_splitP_space (cs : List Char) :
    joinSpace (splitP (· == ' ') cs) = cs := by
  induction cs with
  | nil => simp [splitP, joinSpace]
  | cons c cs ih =>
    by_cases h : c = ' '
    · subst h
      simp only [splitP, beq_self_eq_true, if_true]
      rcases hs : splitP (· == ' ') cs with _ | ⟨t, ts⟩
      · exact absurd hs (splitP_ne_nil _ cs)
      · rw [hs] at ih
        simp [joinSpace, ← ih]
    · have hb : (c == ' ') = false := by simp [h]
      simp only [splitP, hb, Bool.false_eq_true, if_false]
      rcases hs : splitP (· == ' ') cs with _ | ⟨t, ts⟩
      · exact absurd hs (splitP_ne_nil _ cs)
      · rw [hs] at ih
        rcases ts with _ | ⟨u, us⟩
        · simpa [joinSpace] using congrArg (c :: ·) ih
        · simpa [joinSpace] using congrArg (c :: ·) ih

/-- Joining the segments after the first space-split segment yields the
characters after the first space (empty when there is no space). -/
theorem joinSpace_tail_splitP (cs : List Char) :
    joinSpace (splitP (· == ' ') cs).tail =
      (cs.dropWhile (fun c => c != ' ')).drop 1 := by
  induction cs with
  | nil => simp [splitP, joinSpace]
  | cons c cs ih =>
    by_cases h : c = ' '
    · subst h
      simp only [splitP, beq_self_eq_true, if_true, List.tail_cons]
      rw [joinSpace_splitP_space]
      simp [List.dropWhile]
    · have hb : (c == ' ') = false := by simp [h]
      simp only [splitP, hb, Bool.false_eq_true, if_false]
      rcases hs : splitP (· == ' ') cs with _ | ⟨t, ts⟩
      · exact absurd hs (splitP_ne_nil _ cs)
      · rw [hs] at ih
        simp only [List.tail_cons] at ih ⊢
        have hb2 : (c != ' ') = true := by simp [bne, hb]
        simp [List.dropWhile, hb2, ih]

/-- When no character triggers the separator predicate, `splitP` returns the
whole input as its single segment. -/
theorem splitP_no_sep (p : Char → Bool) (cs : List Char)
    (h : ∀ c ∈ cs, p c = false) : splitP p cs = [cs] := by
  induction cs with
  | nil => simp [splitP]
  | cons c cs ih =>
    have hc : p c = false := h c (List.mem_cons_self c cs)
    have hrest : ∀ c ∈ cs, p c = false := fun d hd => h d (List.mem_cons_of_mem c hd)
    simp [splitP, hc, ih hrest]

/-- A non-blank optional string is truthy. -/
theorem truthy_of_not_blank (o : Option String) (h : isBlankOpt o = false) :
    truthy o = true := by
  rcases o with _ | s
  · simp [isBlankOpt] at h
  · simp only [truthy, ne_eq, decide_eq_true_eq]
    intro he
    subst he
    simp [isBlankOpt] at h

/-!
Claim theorems.
-/

/-- Claim C1: caching a token with ttl `T` seconds at time `now` stores
`expiry = now + T * 1000 - 60000` milliseconds (a 60-second safety margin);
a later read at time `t` returns the cached token exactly when
`t < expiry`; in particular a read at `now + (T - 60 - 1)` seconds returns
the token and a read at `now + (T - 60 + 1)` seconds signals absence (an
`Option`, not an error).  The token is a real (non-empty) credential. -/
theorem C1_token_cache_semantics (tok : String) (T now : Int) (h : tok ≠ "") :
    (cacheSet tok T now).expires = now + T * 1000 - 60000 ∧
    (∀ t : Int, cacheGet (cacheSet tok T now) t = some tok ↔
      t < (cacheSet tok T now).expires) ∧
    cacheGet (cacheSet tok T now) (now + (T - 60 - 1) * 1000) = some tok ∧
    cacheGet (cacheSet tok T now) (now + (T - 60 + 1) * 1000) = none := by
  refine ⟨rfl, ?_, ?_, ?_⟩
  · intro t
    simp only [cacheGet, cacheValid, truthy, cacheSet, safetyMarginMs]
    simp [h]
    omega
  · simp only [cacheGet, cacheValid, truthy, cacheSet, safetyMarginMs]
    have hlt : now + (T - 60 - 1) * 1000 < now + T * 1000 - 60000 := by ring_nf; omega
    simp [h, hlt]
  · simp only [cacheGet, cacheValid, truthy, cacheSet, safetyMarginMs]
    have hge : ¬ now + (T - 60 + 1) * 1000 < now + T * 1000 - 60000 := by ring_nf; omega
    simp [hge]

/-- Witness for C1 at `tok = "tk"`, `T = 3600`, `now = 0`. -/
theorem C1_token_cache_semantics_witness :
    cacheGet (cacheSet "tk" 3600 0) (0 + (3600 - 60 - 1) * 1000) = some "tk" :=
  (C1_token_cache_semantics "tk" 3600 0 (by decide)).2.2.1

/-- Claim C2: if the cache holds a (non-empty) token whose expiry is
strictly in the future, `getAccessToken` returns it with no external
authorization call and an unchanged cache; otherwise it performs exactly
one exchange and, when the exchange succeeds, stores the returned
`access_token` / `expires_in` pair and returns the new token. -/
theorem C2_acquire_behaviour (cache : TokenCache) (now : Int)
    (exchange : TokenExchange) (tok : String) (ttl : Int) :
    (∀ s : String, cache.token = some s → s ≠ "" → now < cache.expires →
      getAccessToken cache now exchange =
        { result := .ok s, cache := cache, exchangeCalls := 0 }) ∧
    (cacheValid cache now = false →
      getAccessToken cache now (.success tok ttl) =
        { result := .ok tok, cache := cacheSet tok ttl now, exchangeCalls := 1 }) ∧
    (cacheValid cache now = false →
      (getAccessToken cache now exchange).exchangeCalls = 1) := by
  refine ⟨?_, ?_, ?_⟩
  · intro s hs hne hlt
    simp [getAccessToken, cacheGet, cacheValid, truthy, hs, hne, hlt]
  · intro hmiss
    simp [getAccessToken, cacheGet, hmiss]
  · intro hmiss
    cases exchange <;> simp [getAccessToken, cacheGet, hmiss]

/-- Witness for C2: a cache hit returns the cached token with zero calls,
and a miss against a successful exchange stores and returns the new one. -/
theorem C2_acquire_behaviour_witness :
    getAccessToken { token := some "tk", expires := 100 } 50 .transportFailure =
      { result := .ok "tk", cache := { token := some "tk", expires := 100 }
        exchangeCalls := 0 } ∧
    getAccessToken initialCache 0 (.success "new" 3600) =
      { result := .ok "new", cache := cacheSet "new" 3600 0, exchangeCalls := 1 } ∧
    (getAccessToken initialCache 0 .transportFailure).exchangeCalls = 1 :=
  ⟨(C2_acquire_behaviour { token := some "tk", expires := 100 } 50
      .transportFailure "new" 3600).1 "tk" rfl (by decide) (by decide),
   (C2_acquire_behaviour initialCache 0 .transportFailure "new" 3600).2.1
      (by decide),
   (C2_acquire_behaviour initialCache 0 .transportFailure "new" 3600).2.2
      (by decide)⟩

/-- Claim C4: when the cached token is absent or expired and the
authorization exchange yields a non-success response or any transport
failure (network error, malformed JSON), `getAccessToken` fails with the
authentication error — whose message differs from the CRM request error's —
leaves the cache untouched, and never returns any token. -/
theorem C4_auth_failure (cache : TokenCache) (now : Int)
    (exchange : TokenExchange) (hmiss : cacheValid cache now = false)
    (hfail : ∀ (t : String) (e : Int), exchange ≠ .success t e) :
    getAccessToken cache now exchange =
      { result := .authError authFailureMessage, cache := cache
        exchangeCalls := 1 } ∧
    (∀ t : String, (getAccessToken cache now exchange).result ≠ .ok t) ∧
    authFailureMessage ≠ crmFailureMessage := by
  have hres : getAccessToken cache now exchange =
      { result := .authError authFailureMessage, cache := cache
        exchangeCalls := 1 } := by
    cases exchange with
    | success t e => exact absurd rfl (hfail t e)
    | httpError err => simp [getAccessToken, cacheGet, hmiss]
    | transportFailure => simp [getAccessToken, cacheGet, hmiss]
  refine ⟨hres, ?_, by decide⟩
  intro t
  rw [hres]
  simp

/-- Witness for C4: a cold cache against a network failure. -/
theorem C4_auth_failure_witness :
    getAccessToken initialCache 0 .transportFailure =
      { result := .authError authFailureMessage, cache := initialCache
        exchangeCalls := 1 } ∧
    authFailureMessage ≠ crmFailureMessage :=
  ⟨(C4_auth_failure initialCache 0 .transportFailure (by decide)
      (fun t e h => nomatch h)).1,
   (C4_auth_failure initialCache 0 .transportFailure (by decide)
      (fun t e h => nomatch h)).2.2⟩

/-- Claim C5: the token cache after `createZohoLead` does not depend on the
CRM exchange's outcome at all (so no CRM failure, a 401 included, evicts or
modifies the cached token); the cache after the call is exactly the cache
after token acquisition, and that differs from the initial cache only when
a successful token exchange overwrote it. -/
theorem C5_cache_frame (lead : ZohoLead) (cache : TokenCache) (now : Int)
    (exchange : TokenExchange) (crm crm2 : CrmExchange) :
    (createZohoLead lead cache now exchange crm).cache =
      (createZohoLead lead cache now exchange crm2).cache ∧
    (createZohoLead lead cache now exchange crm).cache =
      (getAccessToken cache now exchange).cache ∧
    ((getAccessToken cache now exchange).cache = cache ∨
      ∃ (tok : String) (ttl : Int), exchange = .success tok ttl ∧
        cacheValid cache now = false ∧
        (getAccessToken cache now exchange).cache = cacheSet tok ttl now) := by
  have hcache : ∀ c : CrmExchange,
      (createZohoLead lead cache now exchange c).cache =
        (getAccessToken cache now exchange).cache := by
    intro c
    unfold createZohoLead
    rcases hr : (getAccessToken cache now exchange).result with t | m
    · rcases c with ⟨ok, body⟩ | _
      · cases ok <;> simp [hr]
      · simp [hr]
    · simp [hr]
  refine ⟨(hcache crm).trans (hcache crm2).symm, hcache crm, ?_⟩
  rcases hv : cacheValid cache now with _ | _
  · cases exchange with
    | success t e =>
        exact Or.inr ⟨t, e, rfl, rfl, by simp [getAccessToken, cacheGet, hv]⟩
    | httpError err => exact Or.inl (by simp [getAccessToken, cacheGet, hv])
    | transportFailure => exact Or.inl (by simp [getAccessToken, cacheGet, hv])
  · have htr : truthy cache.token = true := by
      rcases h2 : truthy cache.token with _ | _
      · rw [cacheValid, h2] at hv
        simp at hv
      · rfl
    rcases ht : cache.token with _ | s
    · rw [ht] at htr
      simp [truthy] at htr
    · have hg : cacheGet cache now = some s := by simp [cacheGet, hv, ht]
      exact Or.inl (by simp [getAccessToken, hg])

/-- Claim C6, counterexample: for the name `" A"` the first
whitespace-delimited token is `"A"`, but the mapper sets `First_Name` to
`""` — `split(' ')` keeps the empty segment before the leading space (and
splits only on the space character, not on general whitespace). -/
theorem C6_name_split_counterexample :
    (mapFormDataToZohoLead
        { name := some " A", email := some "a@b.cd", phone := none
          company := none, message := none, form_type := none }
        "general").First_Name = "" ∧
    whitespaceTokens " A" = ["A"] ∧
    ("" : String) ≠ "A" := by
  refine ⟨rfl, rfl, by decide⟩

/-- Claim C6, amended: the mapper splits the (defaulted) name on the single
space character, keeping empty segments: `First_Name` is the prefix of the
name before its first space — empty for a name starting with a space, and
the whole name when it contains no space, so other whitespace is never
split on; `Last_Name` is everything after the first space, defaulting to
`"User"` when that remainder is empty; an absent or empty name defaults to
`First_Name = "Unknown"`, `Last_Name = "User"`. -/
theorem C6_name_split_amended (fd : FormData) (ft : String) :
    (mapFormDataToZohoLead fd ft).First_Name =
      String.mk ((orDefault fd.name "Unknown User").toList.takeWhile
        (fun c => c != ' ')) ∧
    (mapFormDataToZohoLead fd ft).Last_Name =
      (if (((orDefault fd.name "Unknown User").toList.dropWhile
              (fun c => c != ' ')).drop 1).isEmpty then "User"
       else String.mk (((orDefault fd.name "Unknown User").toList.dropWhile
              (fun c => c != ' ')).drop 1)) ∧
    ((fd.name = none ∨ fd.name = some "") →
      (mapFormDataToZohoLead fd ft).First_Name = "Unknown" ∧
      (mapFormDataToZohoLead fd ft).Last_Name = "User") := by
  have hfirst : ∀ s : String,
      (splitP (· == ' ') s.toList).headD [] =
        s.toList.takeWhile (fun c => c != ' ') := by
    intro s
    rw [splitP_headD]
    simp [bne]
  have hrest : ∀ s : String,
      joinSpace (splitP (· == ' ') s.toList).tail =
        (s.toList.dropWhile (fun c => c != ' ')).drop 1 := by
    intro s
    exact joinSpace_tail_splitP s.toList
  refine ⟨?_, ?_, ?_⟩
  · simp only [mapFormDataToZohoLead, hfirst]
    cases ft' : decide (ft = "contact") <;>
      cases ft2 : decide (ft = "newsletter") <;>
        simp_all [mapFormDataToZohoLead]
  · simp only [mapFormDataToZohoLead, hrest]
    cases ft' : decide (ft = "contact") <;>
      cases ft2 : decide (ft = "newsletter") <;>
        simp_all [mapFormDataToZohoLead]
  · intro habs
    have hdef : orDefault fd.name "Unknown User" = "Unknown User" := by
      rcases habs with h | h <;> simp [orDefault, h]
    constructor
    · simp only [mapFormDataToZohoLead, hdef]
      cases ft' : decide (ft = "contact") <;>
        cases ft2 : decide (ft = "newsletter") <;>
          simp_all [mapFormDataToZohoLead, hdef]
    · simp only [mapFormDataToZohoLead, hdef]
      cases ft' : decide (ft = "contact") <;>
        cases ft2 : decide (ft = "newsletter") <;>
          simp_all [mapFormDataToZohoLead, hdef]

/-- Witness for C6 (amended) on an absent name. -/
theorem C6_name_split_amended_witness :
    (mapFormDataToZohoLead
        { name := none, email := some "a@b.cd", phone := none
          company := none, message := none, form_type := none }
        "general").First_Name = "Unknown" ∧
    (mapFormDataToZohoLead
        { name := none, email := some "a@b.cd", phone := none
          company := none, message := none, form_type := none }
        "general").Last_Name = "User" :=
  (C6_name_split_amended
      { name := none, email := some "a@b.cd", phone := none
        company := none, message := none, form_type := none }
      "general").2.2 (Or.inl rfl)

/-- Claim C7: form type `"contact"` yields `Lead_Source`
`"Website - Contact Form"` with status `"Not Contacted"`; `"newsletter"`
yields `"Website - Newsletter"` with status `"Qualified"`; any other form
type yields `"Website"` with `"Not Contacted"`; and an absent `form_type`
goes through the handler's `'general'` default into the same default row. -/
theorem C7_form_type_table (fd : FormData) (ft : String)
    (hc : ft ≠ "contact") (hn : ft ≠ "newsletter") :
    ((mapFormDataToZohoLead fd "contact").Lead_Source =
        "Website - Contact Form" ∧
      (mapFormDataToZohoLead fd "contact").Lead_Status = "Not Contacted") ∧
    ((mapFormDataToZohoLead fd "newsletter").Lead_Source =
        "Website - Newsletter" ∧
      (mapFormDataToZohoLead fd "newsletter").Lead_Status = "Qualified") ∧
    ((mapFormDataToZohoLead fd ft).Lead_Source = "Website" ∧
      (mapFormDataToZohoLead fd ft).Lead_Status = "Not Contacted") ∧
    (fd.form_type = none →
      (mapFormDataToZohoLead fd
          (orDefault fd.form_type "general")).Lead_Source = "Website" ∧
      (mapFormDataToZohoLead fd
          (orDefault fd.form_type "general")).Lead_Status = "Not Contacted") := by
  refine ⟨⟨?_, ?_⟩, ⟨?_, ?_⟩, ⟨?_, ?_⟩, ?_⟩
  · simp [mapFormDataToZohoLead]
  · simp [mapFormDataToZohoLead]
  · simp [mapFormDataToZohoLead]
  · simp [mapFormDataToZohoLead]
  · simp [mapFormDataToZohoLead, hc, hn]
  · simp [mapFormDataToZohoLead, hc, hn]
  · intro habs
    have : orDefault fd.form_type "general" = "general" := by
      simp [orDefault, habs]
    rw [this]
    constructor <;> simp [mapFormDataToZohoLead]

/-- Witness for C7 at form type `"other"` on an absent form_type field. -/
theorem C7_form_type_table_witness :
    (mapFormDataToZohoLead
        { name := some "Ann Lee", email := some "a@b.com", phone := none
          company := none, message := none, form_type := none }
        "other").Lead_Source = "Website" ∧
    (mapFormDataToZohoLead
        { name := some "Ann Lee", email := some "a@b.com", phone := none
          company := none, message := none, form_type := none }
        "other").Lead_Status = "Not Contacted" :=
  (C7_form_type_table
      { name := some "Ann Lee", email := some "a@b.com", phone := none
        company := none, message := none, form_type := none }
      "other" (by decide) (by decide)).2.2.1

/-- Claim C9: the lead mapper is deterministic — equal submissions and
equal form types map to equal lead records (the mapper reads no clock and
no ambient state in the embedding). -/
theorem C9_map_deterministic (fd1 fd2 : FormData) (ft1 ft2 : String)
    (hfd : fd1 = fd2) (hft : ft1 = ft2) :
    mapFormDataToZohoLead fd1 ft1 = mapFormDataToZohoLead fd2 ft2 := by
  rw [hfd, hft]

/-- Witness for C9 on the spec's example submission. -/
theorem C9_map_deterministic_witness :
    mapFormDataToZohoLead
        { name := some "Ann Lee", email := some "a@b.com", phone := none
          company := none, message := none, form_type := some "newsletter" }
        "newsletter" =
      mapFormDataToZohoLead
        { name := some "Ann Lee", email := some "a@b.com", phone := none
          company := none, message := none, form_type := some "newsletter" }
        "newsletter" :=
  C9_map_deterministic _ _ _ _ rfl rfl

/-- With a successful token exchange and an HTTP-ok CRM response, the lead
submission yields the parsed CRM body. -/
theorem createZohoLead_ok (lead : ZohoLead) (cache : TokenCache) (now : Int)
    (tok : String) (ttl : Int) (body : ZohoResponseBody) :
    (createZohoLead lead cache now (.success tok ttl)
        (.response true body)).result = .ok body := by
  unfold createZohoLead
  rcases hg : cacheGet cache now with _ | s <;> simp [getAccessToken, hg]

/-- Claim C3, counterexample: on a CRM body whose `data` list has two
entries (the first successful), the handler still answers 200, although the
spec's required shape — exactly one entry — does not hold, refuting the
stated "if and only if". -/
theorem C3_crm_ack_counterexample :
    (handlerPost
        { name := some "Jane Doe", email := some "jane@co.com", phone := none
          company := none, message := none, form_type := some "contact" }
        initialCache 0 (.success "tok" 3600)
        (.response true
          { data := some
              [{ status := some "success", details := some { id := some "42" } },
               { status := some "error", details := none }]
            message := none })).1.status = 200 ∧
    crmAckExactlyOne
        { data := some
            [{ status := some "success", details := some { id := some "42" } },
             { status := some "error", details := none }]
          message := none } = false := by
  exact ⟨rfl, rfl⟩

/-- Claim C3, amended: on an HTTP-ok CRM response the handler reports
success exactly when the `data` list's FIRST entry has status `"success"`
and carries a `details` object — later entries are never inspected, and the
identifier may be absent (the 200 response then simply omits `leadId`);
when it does succeed, `leadId` is the first entry's `details.id`; the
spec's stricter exactly-one shape still implies success; in every other
case the handler fails with a 500 (the generic CRM failure message, or a
TypeError when a success-status entry has no `details`). -/
theorem C3_crm_ack_amended (fd : FormData) (cache : TokenCache) (now : Int)
    (tok : String) (ttl : Int) (body : ZohoResponseBody)
    (h : validateFormData fd = []) :
    ((handlerPost fd cache now (.success tok ttl)
        (.response true body)).1.status = 200 ↔ crmAckFirst body = true) ∧
    ((handlerPost fd cache now (.success tok ttl)
        (.response true body)).1.success = true ↔ crmAckFirst body = true) ∧
    (∀ (entry : ZohoEntry) (rest : List ZohoEntry) (d : ZohoDetails),
      body.data = some (entry :: rest) → entry.status = some "success" →
      entry.details = some d →
      (handlerPost fd cache now (.success tok ttl)
          (.response true body)).1.leadId = d.id) ∧
    (crmAckFirst body = false →
      (handlerPost fd cache now (.success tok ttl)
          (.response true body)).1.status = 500) ∧
    (crmAckExactlyOne body = true → crmAckFirst body = true) := by
  have hcr := createZohoLead_ok
    (mapFormDataToZohoLead fd (orDefault fd.form_type "general")) cache now
    tok ttl body
  have hh : (handlerPost fd cache now (.success tok ttl)
      (.response true body)).1 = respondToCrmBody body := by
    rcases hres : createZohoLead
        (mapFormDataToZohoLead fd (orDefault fd.form_type "general")) cache now
        (.success tok ttl) (.response true body) with ⟨res, cache2, calls⟩
    rw [hres] at hcr
    simp only at hcr
    subst hcr
    simp [handlerPost, h, hres]
  rw [hh]
  rcases body with ⟨bd, msg⟩
  rcases bd with _ | (_ | ⟨⟨st, det⟩, rest⟩)
  · refine ⟨by simp [respondToCrmBody, crmAckFirst],
            by simp [respondToCrmBody, crmAckFirst], ?_, ?_, ?_⟩
    · intro entry rest d hd
      exact absurd hd (by simp)
    · intro _
      rfl
    · intro hx
      simp [crmAckExactlyOne] at hx
  · refine ⟨by simp [respondToCrmBody, crmAckFirst],
            by simp [respondToCrmBody, crmAckFirst], ?_, ?_, ?_⟩
    · intro entry rest d hd
      exact absurd hd (by simp)
    · intro _
      rfl
    · intro hx
      simp [crmAckExactlyOne] at hx
  · by_cases hst : st = some "success"
    · subst hst
      rcases det with _ | d
      · refine ⟨by simp [respondToCrmBody, crmAckFirst],
                by simp [respondToCrmBody, crmAckFirst], ?_, ?_, ?_⟩
        · intro entry rest2 d hd hs hdet
          simp only [Option.some.injEq, List.cons.injEq] at hd
          obtain ⟨h1, -⟩ := hd
          rw [← h1] at hdet
          simp at hdet
        · intro _
          simp [respondToCrmBody]
        · intro hx
          rcases rest with _ | ⟨e2, r2⟩ <;> simp [crmAckExactlyOne] at hx
      · refine ⟨by simp [respondToCrmBody, crmAckFirst],
                by simp [respondToCrmBody, crmAckFirst], ?_, ?_, ?_⟩
        · intro entry rest2 d2 hd hs hdet
          simp only [Option.some.injEq, List.cons.injEq] at hd
          obtain ⟨h1, -⟩ := hd
          rw [← h1] at hdet
          simp only [Option.some.injEq] at hdet
          subst hdet
          simp [respondToCrmBody]
        · intro hfalse
          simp [crmAckFirst] at hfalse
        · intro _
          simp [crmAckFirst]
    · refine ⟨by simp [respondToCrmBody, crmAckFirst, hst],
              by simp [respondToCrmBody, crmAckFirst, hst], ?_, ?_, ?_⟩
      · intro entry rest2 d hd hs hdet
        simp only [Option.some.injEq, List.cons.injEq] at hd
        obtain ⟨h1, -⟩ := hd
        rw [← h1] at hs
        simp only at hs
        exact absurd hs hst
      · intro _
        simp [respondToCrmBody, hst]
      · intro hx
        rcases rest with _ | ⟨e2, r2⟩ <;> simp [crmAckExactlyOne, hst] at hx

/-- Witness for C3 (amended) on the spec's end-to-end success example. -/
theorem C3_crm_ack_amended_witness :
    (handlerPost
        { name := some "Jane Doe", email := some "jane@co.com", phone := none
          company := none, message := none, form_type := some "contact" }
        initialCache 0 (.success "tok" 3600)
        (.response true
          { data := some
              [{ status := some "success", details := some { id := some "42" } }]
            message := none })).1.status = 200 :=
  ((C3_crm_ack_amended
      { name := some "Jane Doe", email := some "jane@co.com", phone := none
        company := none, message := none, form_type := some "contact" }
      initialCache 0 "tok" 3600
      { data := some
          [{ status := some "success", details := some { id := some "42" } }]
        message := none }
      (by decide)).1).mpr (by decide)

/-- Claim C8: validation demands a non-blank name and a non-blank email
matching the `local@domain.tld` regex; `{name:"", email:"x@y.com"}` yields
"Name is required", `{name:"A", email:"not-an-email"}` yields
"Invalid email format", and any non-empty error list makes the handler
answer 400 with `"Validation failed: "` followed by the messages joined by
`", "`, leaving the cache untouched. -/
theorem C8_validation (fd : FormData) (cache : TokenCache) (now : Int)
    (exchange : TokenExchange) (crm : CrmExchange)
    (h : validateFormData fd ≠ []) :
    "Name is required" ∈ validateFormData
      { name := some "", email := some "x@y.com", phone := none
        company := none, message := none, form_type := none } ∧
    "Invalid email format" ∈ validateFormData
      { name := some "A", email := some "not-an-email", phone := none
        company := none, message := none, form_type := none } ∧
    handlerPost fd cache now exchange crm =
      ({ status := 400, success := false, message := none
         error := some ("Validation failed: " ++
           String.intercalate ", " (validateFormData fd))
         leadId := none }, cache) ∧
    (∀ fd2 : FormData, validateFormData fd2 = [] ↔
      (isBlankOpt fd2.name = false ∧ isBlankOpt fd2.email = false ∧
        emailRegexTest (fd2.email.getD "") = true)) := by
  refine ⟨by decide, by decide, ?_, ?_⟩
  · have hne : (validateFormData fd).isEmpty = false := by
      rcases hl : validateFormData fd with _ | ⟨a, l⟩
      · exact absurd hl h
      · rfl
    simp [handlerPost, hne]
  · intro fd2
    constructor
    · intro hv
      have h1 : isBlankOpt fd2.name = false := by
        cases hx : isBlankOpt fd2.name
        · rfl
        · simp [validateFormData, hx] at hv
      have h2 : isBlankOpt fd2.email = false := by
        cases hx : isBlankOpt fd2.email
        · rfl
        · simp [validateFormData, hx] at hv
      have ht : truthy fd2.email = true := truthy_of_not_blank fd2.email h2
      have h3 : emailRegexTest (fd2.email.getD "") = true := by
        cases hx : emailRegexTest (fd2.email.getD "")
        · simp [validateFormData, ht, hx] at hv
        · rfl
      exact ⟨h1, h2, h3⟩
    · rintro ⟨h1, h2, h3⟩
      have ht : truthy fd2.email = true := truthy_of_not_blank fd2.email h2
      simp [validateFormData, h1, h2, ht, h3]

/-- Witness for C8 on the blank-name submission. -/
theorem C8_validation_witness :
    handlerPost
        { name := some "", email := some "x@y.com", phone := none
          company := none, message := none, form_type := none }
        initialCache 0 .transportFailure .transportFailure =
      ({ status := 400, success := false, message := none
         error := some ("Validation failed: " ++
           String.intercalate ", " (validateFormData
             { name := some "", email := some "x@y.com", phone := none
               company := none, message := none, form_type := none }))
         leadId := none }, initialCache) :=
  (C8_validation
      { name := some "", email := some "x@y.com", phone := none
        company := none, message := none, form_type := none }
      initialCache 0 .transportFailure .transportFailure (by decide)).2.2.1

/-- Claim C10: an email that is non-empty but all whitespace is counted
both as missing ("Email is required": trimming leaves nothing) and as
malformed ("Invalid email format": the regex admits no whitespace), so one
blank email field contributes two messages and the handler answers 400. -/
theorem C10_blank_email_double_error (fd : FormData) (e : String)
    (cache : TokenCache) (now : Int) (exchange : TokenExchange)
    (crm : CrmExchange) (he : fd.email = some e) (hne : e ≠ "")
    (hws : e.toList.all Char.isWhitespace = true) :
    "Email is required" ∈ validateFormData fd ∧
    "Invalid email format" ∈ validateFormData fd ∧
    (handlerPost fd cache now exchange crm).1.status = 400 := by
  have hb2 : isBlankOpt (some e) = true := by
    simp only [isBlankOpt]
    exact hws
  have ht2 : truthy (some e) = true := by simp [truthy, hne]
  have hall : ∀ c ∈ e.toList, c.isWhitespace = true := by
    intro c hc
    exact List.all_eq_true.mp hws c hc
  have hreg : emailRegexTest e = false := by
    have hnosep : ∀ c ∈ e.toList, (c == '@') = false := by
      intro c hc
      cases hq : (c == '@')
      · rfl
      · have hceq : c = '@' := eq_of_beq hq
        have hwc := hall c hc
        rw [hceq] at hwc
        exact absurd hwc (by decide)
    unfold emailRegexTest
    rw [splitP_no_sep _ _ hnosep]
  refine ⟨?_, ?_, ?_⟩
  · simp [validateFormData, he, hb2, ht2, hreg]
  · simp [validateFormData, he, hb2, ht2, hreg]
  · have hne2 : (validateFormData fd).isEmpty = false := by
      cases hn : isBlankOpt fd.name <;>
        simp [validateFormData, he, hb2, ht2, hreg, hn]
    simp [handlerPost, hne2]

/-- Witness for C10 at the single-space email. -/
theorem C10_blank_email_double_error_witness :
    "Email is required" ∈ validateFormData
      { name := some "A", email := some " ", phone := none
        company := none, message := none, form_type := none } ∧
    "Invalid email format" ∈ validateFormData
      { name := some "A", email := some " ", phone := none
        company := none, message := none, form_type := none } :=
  ⟨(C10_blank_email_double_error
      { name := some "A", email := some " ", phone := none
        company := none, message := none, form_type := none }
      " " initialCache 0 .transportFailure .transportFailure rfl
      (by decide) (by decide)).1,
   (C10_blank_email_double_error
      { name := some "A", email := some " ", phone := none
        company := none, message := none, form_type := none }
      " " initialCache 0 .transportFailure .transportFailure rfl
      (by decide) (by decide)).2.1⟩

end Webhook
